import Mathlib

/-!
# Earthquake Visualizer — shallow embedding

A shallow embedding of the data-transformation pipeline of
`src/earthquake_visualizer_react_single_file.jsx`:
fetch resolution → normalize → filter → visual encoding → sort → map framing.

Modelling conventions:
* A JavaScript number that is not `NaN` is idealized as a rational (`ℚ`);
  `NaN` is modelled explicitly by the `JSNum` type, since the filter predicate
  `(d.magnitude ?? 0) >= minMag` behaves differently on `NaN` than on `null`.
* `null`/`undefined` fields are `Option`s (`none` = null/undefined).
* The transcendental radius encoder `Math.max(4, Math.pow(2, m / 1.4))` is
  embedded over the reals with `Real.rpow`; its callers only receive
  `null`-or-finite magnitudes (a `NaN` magnitude never passes the filter, see
  the development around `filtered`), so its domain is `Option ℚ`.
* React state (`data`, `loading`, `error`) becomes an explicit `SessionState`
  record, and the fetch promise handlers become a resolution function taking
  the closure-captured `mounted` flag as an argument.
-/

namespace EqViz

/-- A JavaScript number: a finite value (idealized as `ℚ`) or `NaN`. -/
inductive JSNum where
  | num (q : ℚ)
  | nan
deriving DecidableEq, Repr

/-- JavaScript `a >= b`: ordinary comparison on finite values, `false` whenever
either operand is `NaN`. -/
def JSNum.jsGe : JSNum → JSNum → Bool
  | JSNum.num a, JSNum.num b => b ≤ a
  | _, _ => false

/-- JavaScript nullish coalescing `m ?? 0`: replaces only `null`/`undefined`
(`none`); `NaN` is a value and passes through. -/
def nullish0 (m : Option JSNum) : JSNum := m.getD (JSNum.num 0)

/-- `properties` of a raw GeoJSON feature: `{ mag, place, time, url }`. -/
structure RawProps where
  mag : Option JSNum
  place : String
  time : Int
  url : String
deriving DecidableEq

/-- `geometry` of a raw GeoJSON feature: `coordinates` is `[lon, lat, depth?]`,
a 2-or-3-element array. -/
structure RawGeometry where
  coordinates : List ℚ
deriving DecidableEq

/-- A raw feed feature `{ id, properties, geometry }`. -/
structure RawFeature where
  id : String
  properties : RawProps
  geometry : RawGeometry
deriving DecidableEq

/-- The normalized record built in the fetch success handler (lines 40–48):
`{ id, magnitude, place, time, url, coords, depth }`. -/
structure Quake where
  id : String
  magnitude : Option JSNum
  place : String
  time : Int
  url : String
  coords : List ℚ
  depth : Option ℚ
deriving DecidableEq

/-- The per-feature mapping of the success handler (lines 40–48):
copies `id`, `properties.mag`, `properties.place`, `properties.time`,
`properties.url` and the whole `geometry.coordinates` array verbatim, and reads
`geometry.coordinates[2]` for `depth` (JavaScript yields `undefined`, i.e.
`none`, when the index is out of range). -/
def normalizeFeature (f : RawFeature) : Quake :=
  { id := f.id
    magnitude := f.properties.mag
    place := f.properties.place
    time := f.properties.time
    url := f.properties.url
    coords := f.geometry.coordinates
    depth := f.geometry.coordinates.get? 2 }

/-- `(json.features || []).map(f => ({...}))`: element-wise normalization. -/
def normalize (features : List RawFeature) : List Quake :=
  features.map normalizeFeature

/-- Longitude as read at the render sites: `f.coords[0]` (line 116). -/
def Quake.longitude (q : Quake) : Option ℚ := q.coords.get? 0

/-- Latitude as read at the render sites: `f.coords[1]` (line 117). -/
def Quake.latitude (q : Quake) : Option ℚ := q.coords.get? 1

/-- Line 60: `data.filter((d) => (d.magnitude ?? 0) >= minMag)`. -/
def filtered (data : List Quake) (minMag : ℚ) : List Quake :=
  data.filter (fun d => JSNum.jsGe (nullish0 d.magnitude) (JSNum.num minMag))

/-- Lines 62–66: `magToRadius`. `m == null` catches `null`/`undefined`;
otherwise `Math.max(4, Math.pow(2, m / 1.4))`, embedded with `Real.rpow`.
Domain `Option ℚ`: every call site passes a magnitude of a record that
survived `filtered`, which is `null` or finite. -/
noncomputable def magToRadius : Option ℚ → ℝ
  | none => 4
  | some m => max 4 (Real.rpow 2 ((m : ℝ) / 1.4))

/-- Lines 68–76: `magToColor`, a descending first-match threshold table. -/
def magToColor : Option ℚ → String
  | none => "#999"
  | some m =>
    if 5 ≤ m then "#800026"
    else if 4 ≤ m then "#BD0026"
    else if 3 ≤ m then "#E31A1C"
    else if 2 ≤ m then "#FC4E2A"
    else if 1 ≤ m then "#FD8D3C"
    else "#FED976"

/-- The six color tokens of the non-null buckets, darkest first. -/
def colorTokens : List String :=
  ["#800026", "#BD0026", "#E31A1C", "#FC4E2A", "#FD8D3C", "#FED976"]

/-- The sort key of the list-view comparator
`(a, b) => (b.magnitude ?? 0) - (a.magnitude ?? 0)` (line 158): `magnitude ?? 0`
as a rational. Records reaching the sort come from `filtered`, whose predicate
rejects every `NaN` magnitude, so the `nan` branch is never exercised there. -/
def sortKey (q : Quake) : ℚ :=
  match nullish0 q.magnitude with
  | JSNum.num x => x
  | JSNum.nan => 0

/-- Lines 156–158: `filtered.slice().sort((a, b) => (b.magnitude ?? 0) - (a.magnitude ?? 0))`.
The comparator places `a` before `b` exactly when its value is `<= 0`, i.e. when
`sortKey b ≤ sortKey a` (descending by key); `slice()` copies, and the sort is
modelled by the stable `mergeSort`. -/
def listDisplay (data : List Quake) (minMag : ℚ) : List Quake :=
  (filtered data minMag).mergeSort (fun a b => decide (sortKey b ≤ sortKey a))

/-- Lines 6–19, the `FitBounds` effect body, applied to the marker coordinate
list it receives. `if (!features || features.length === 0) return;` makes the
empty case a no-op (`none`); the `.filter(Boolean)` keeps every element since
arrays are truthy; `if (bounds.length)` guards the actual `map.fitBounds`
request, returned here as `some bounds`. -/
def fitBoundsEffect (features : List (Option ℚ × Option ℚ)) :
    Option (List (Option ℚ × Option ℚ)) :=
  if features.length = 0 then none
  else
    let bounds := (features.map (fun p => (p.2, p.1))).filter (fun _ => true)
    if 0 < bounds.length then some bounds else none

/-- The coordinate pair the call site (line 113) hands to `FitBounds` for one
record: `[f.coords[0], f.coords[1]]` as `(lon, lat)`. -/
def markerLonLat (f : Quake) : Option ℚ × Option ℚ :=
  (f.coords.get? 0, f.coords.get? 1)

/-- Line 113: `FitBounds` applied to the filtered set's marker coordinates. -/
def fitBoundsCall (data : List Quake) (minMag : ℚ) :
    Option (List (Option ℚ × Option ℚ)) :=
  fitBoundsEffect ((filtered data minMag).map markerLonLat)

/-- The retained React state touched by the fetch effect:
`data` (line 22), `loading` (line 23), `error` (line 24). -/
structure SessionState where
  data : List Quake
  loading : Bool
  error : Option String
deriving DecidableEq

/-- State at the start of the effect: `useState([])`, `useState(true)`,
`useState(null)`, with `setLoading(true)` re-asserted at line 32. -/
def initialState : SessionState :=
  { data := [], loading := true, error := none }

/-- Parsed response body: `json.features` may be absent (`json.features || []`
at line 40). -/
structure FeedJson where
  features : Option (List RawFeature)

/-- How the fetch settles: a parsed success, or a failure carrying the caught
error's `message`. A non-ok HTTP status throws
`Error("Network response was not ok")` (line 35) and therefore surfaces as a
`failure` with that message; a rejected fetch surfaces as a `failure` with the
rejection's message (possibly empty). -/
inductive FetchOutcome where
  | success (json : FeedJson)
  | failure (msg : String)

/-- The message thrown at line 35 for a non-success HTTP status. -/
def httpNotOkMessage : String := "Network response was not ok"

/-- The promise resolution handlers (lines 38–56). Both handlers first check
the closure-captured `mounted` flag (lines 39, 53) and do nothing when it is
`false`. On success, `setData` with the normalized features and
`setLoading(false)`; on failure, `setError(err.message || "Failed to load")`
(empty message is falsy) and `setLoading(false)`. -/
def resolveFetch (mounted : Bool) (s : SessionState) : FetchOutcome → SessionState
  | FetchOutcome.success json =>
      if mounted then
        { s with data := normalize (json.features.getD []), loading := false }
      else s
  | FetchOutcome.failure msg =>
      if mounted then
        { s with error := some (if msg = "" then "Failed to load" else msg),
                 loading := false }
      else s

/-- A concrete record with `null` magnitude. -/
def qNull : Quake :=
  { id := "n1", magnitude := none, place := "pn", time := 0, url := "un",
    coords := [10, 20, 5], depth := some 5 }

/-- A concrete record with `NaN` magnitude. -/
def qNaN : Quake :=
  { id := "x1", magnitude := some JSNum.nan, place := "px", time := 0, url := "ux",
    coords := [30, 40], depth := none }

/-- A concrete record with magnitude `5.2`. -/
def qBig : Quake :=
  { id := "b1", magnitude := some (JSNum.num (26/5)), place := "pb", time := 0,
    url := "ub", coords := [1, 2, 3], depth := some 3 }

/-- A concrete raw feature with a 2-element coordinate tuple (no depth). -/
def rawF2 : RawFeature :=
  { id := "r2"
    properties := { mag := some (JSNum.num 1), place := "pp", time := 5, url := "uu" }
    geometry := { coordinates := [30, 40] } }

/-! ## Helper lemmas -/

/-- Lowering the threshold preserves passing the filter comparison. -/
lemma jsGe_num_mono {v : JSNum} {t1 t2 : ℚ} (h : t1 ≤ t2)
    (hv : v.jsGe (JSNum.num t2) = true) : v.jsGe (JSNum.num t1) = true := by
  cases v with
  | num a =>
    simp only [JSNum.jsGe, decide_eq_true_eq] at hv ⊢
    exact le_trans h hv
  | nan => simp [JSNum.jsGe] at hv

/-! ## Claims -/

/-- Claim C1: for every normalized set and threshold `t`, the filtered view is
the order-preserving subset of records whose `(magnitude ?? 0) >= t`; in
particular a record with null magnitude compares as `0` and is excluded
whenever `t > 0`. -/
theorem filtered_subset_spec (data : List Quake) (t : ℚ) :
    (filtered data t).Sublist data ∧
    (∀ q : Quake, q ∈ filtered data t ↔
      q ∈ data ∧ JSNum.jsGe (nullish0 q.magnitude) (JSNum.num t) = true) ∧
    (∀ q : Quake, q.magnitude = none → 0 < t → q ∉ filtered data t) := by
  refine ⟨List.filter_sublist _, fun q => List.mem_filter, fun q hq ht hmem => ?_⟩
  rcases List.mem_filter.1 hmem with ⟨-, hpred⟩
  rw [hq] at hpred
  simp only [nullish0, Option.getD_none, JSNum.jsGe, decide_eq_true_eq] at hpred
  exact absurd hpred (not_le.2 ht)

/-- Witness for C1 at a concrete input. -/
theorem filtered_subset_spec_witness :
    qNull.magnitude = none ∧ (0 : ℚ) < 1 ∧ qNull ∉ filtered [qNull] 1 :=
  ⟨rfl, by decide, (filtered_subset_spec [qNull] 1).2.2 qNull rfl (by decide)⟩

/-- Claim C2: raising the threshold never increases the number of shown
records. -/
theorem filtered_length_antitone (data : List Quake) (t1 t2 : ℚ) (h : t1 ≤ t2) :
    (filtered data t2).length ≤ (filtered data t1).length := by
  apply List.Sublist.length_le
  apply List.monotone_filter_right
  intro a ha
  exact jsGe_num_mono h ha

/-- Witness for C2 at a concrete input. -/
theorem filtered_length_antitone_witness :
    (filtered [qBig, qNull] 2).length ≤ (filtered [qBig, qNull] 0).length :=
  filtered_length_antitone [qBig, qNull] 0 2 (by decide)

/-- Claim C3: normalization preserves length and order, copies `id`,
`magnitude`, `place`, `time`, `url` verbatim, extracts longitude/latitude/depth
from the coordinate tuple, and leaves depth `none` when the third element is
absent. -/
theorem normalize_spec (fs : List RawFeature) :
    (normalize fs).length = fs.length ∧
    (∀ i : ℕ, (normalize fs).get? i = (fs.get? i).map normalizeFeature) ∧
    (∀ f : RawFeature,
      (normalizeFeature f).id = f.id ∧
      (normalizeFeature f).magnitude = f.properties.mag ∧
      (normalizeFeature f).place = f.properties.place ∧
      (normalizeFeature f).time = f.properties.time ∧
      (normalizeFeature f).url = f.properties.url ∧
      (normalizeFeature f).longitude = f.geometry.coordinates.get? 0 ∧
      (normalizeFeature f).latitude = f.geometry.coordinates.get? 1 ∧
      (normalizeFeature f).depth = f.geometry.coordinates.get? 2) ∧
    (∀ f : RawFeature, f.geometry.coordinates.length = 2 →
      (normalizeFeature f).depth = none) := by
  refine ⟨List.length_map _ _, fun i => List.get?_map _ _ _, fun f => ?_, fun f h => ?_⟩
  · exact ⟨rfl, rfl, rfl, rfl, rfl, rfl, rfl, rfl⟩
  · show f.geometry.coordinates.get? 2 = none
    rw [List.get?_eq_none]
    omega

/-- Witness for C3 at a concrete input. -/
theorem normalize_spec_witness :
    rawF2.geometry.coordinates.length = 2 ∧ (normalizeFeature rawF2).depth = none :=
  ⟨rfl, (normalize_spec []).2.2.2 rawF2 rfl⟩

/-- Claim C4: `magToRadius` returns 4 on null, `max 4 (2 ^ (m / 1.4))`
otherwise, is at least 4 everywhere, and is non-decreasing in the magnitude. -/
theorem magToRadius_spec :
    magToRadius none = 4 ∧
    (∀ m : ℚ, magToRadius (some m) = max 4 (Real.rpow 2 ((m : ℝ) / 1.4))) ∧
    (∀ m : Option ℚ, (4 : ℝ) ≤ magToRadius m) ∧
    (∀ m₁ m₂ : ℚ, m₁ ≤ m₂ → magToRadius (some m₁) ≤ magToRadius (some m₂)) := by
  refine ⟨rfl, fun m => rfl, fun m => ?_, fun m₁ m₂ h => ?_⟩
  · cases m with
    | none => simp [magToRadius]
    | some x => exact le_max_left _ _
  · apply max_le_max le_rfl
    apply Real.rpow_le_rpow_of_exponent_le (by norm_num : (1 : ℝ) ≤ 2)
    have hc : (m₁ : ℝ) ≤ (m₂ : ℝ) := by exact_mod_cast h
    exact (div_le_div_right (by norm_num : (0 : ℝ) < 1.4)).2 hc

/-- Witness for C4 at a concrete input. -/
theorem magToRadius_spec_witness :
    magToRadius (some 1) ≤ magToRadius (some 2) :=
  magToRadius_spec.2.2.2 1 2 (by decide)

/-- Claim C5: `magToColor` maps null to the gray token and otherwise partitions
the line into six contiguous buckets with inclusive lower bounds 5, 4, 3, 2, 1
and a final bucket below 1, checked in descending order with first match
winning, each bucket yielding one fixed token. -/
theorem magToColor_spec :
    magToColor none = "#999" ∧
    (∀ m : ℚ, 5 ≤ m → magToColor (some m) = "#800026") ∧
    (∀ m : ℚ, 4 ≤ m → m < 5 → magToColor (some m) = "#BD0026") ∧
    (∀ m : ℚ, 3 ≤ m → m < 4 → magToColor (some m) = "#E31A1C") ∧
    (∀ m : ℚ, 2 ≤ m → m < 3 → magToColor (some m) = "#FC4E2A") ∧
    (∀ m : ℚ, 1 ≤ m → m < 2 → magToColor (some m) = "#FD8D3C") ∧
    (∀ m : ℚ, m < 1 → magToColor (some m) = "#FED976") ∧
    (∀ m : ℚ, magToColor (some m) ∈ colorTokens) := by
  refine ⟨rfl, fun m h5 => ?_, fun m h4 h5 => ?_, fun m h3 h4 => ?_,
    fun m h2 h3 => ?_, fun m h1 h2 => ?_, fun m h1 => ?_, fun m => ?_⟩
  · simp only [magToColor]
    rw [if_pos h5]
  · simp only [magToColor]
    rw [if_neg (by linarith), if_pos h4]
  · simp only [magToColor]
    rw [if_neg (by linarith), if_neg (by linarith), if_pos h3]
  · simp only [magToColor]
    rw [if_neg (by linarith), if_neg (by linarith), if_neg (by linarith), if_pos h2]
  · simp only [magToColor]
    rw [if_neg (by linarith), if_neg (by linarith), if_neg (by linarith),
      if_neg (by linarith), if_pos h1]
  · simp only [magToColor]
    rw [if_neg (by linarith), if_neg (by linarith), if_neg (by linarith),
      if_neg (by linarith), if_neg (by linarith)]
  · simp only [magToColor, colorTokens]
    split_ifs <;> simp

/-- Witness for C5 at concrete inputs. -/
theorem magToColor_spec_witness :
    magToColor (some 6) = "#800026" ∧ magToColor (some 0) = "#FED976" :=
  ⟨magToColor_spec.2.1 6 (by decide),
   magToColor_spec.2.2.2.2.2.2.1 0 (by decide)⟩

/-- Claim C6: the list display sorts the filtered set by `magnitude ?? 0`
descending — every adjacent pair satisfies `(a.magnitude ?? 0) ≥
(b.magnitude ?? 0)` — and is a permutation of the filtered set, so each
record (and hence its displayed magnitude) is exactly as normalized. -/
theorem listDisplay_spec (data : List Quake) (t : ℚ) :
    List.Chain' (fun a b => sortKey b ≤ sortKey a) (listDisplay data t) ∧
    (listDisplay data t).Perm (filtered data t) := by
  constructor
  · have htrans : ∀ a b c : Quake,
        decide (sortKey b ≤ sortKey a) = true →
        decide (sortKey c ≤ sortKey b) = true →
        decide (sortKey c ≤ sortKey a) = true := by
      intro a b c hab hbc
      simp only [decide_eq_true_eq] at hab hbc ⊢
      exact le_trans hbc hab
    have htotal : ∀ a b : Quake,
        (decide (sortKey b ≤ sortKey a) || decide (sortKey a ≤ sortKey b)) = true := by
      intro a b
      simp only [Bool.or_eq_true, decide_eq_true_eq]
      exact le_total (sortKey b) (sortKey a)
    have hp := List.sorted_mergeSort htrans htotal (filtered data t)
    exact (hp.imp (fun h => of_decide_eq_true h)).chain'
  · exact List.mergeSort_perm (filtered data t) _

/-- Claim C7: the bounds-fit request is a no-op for an empty filtered set (the
map keeps its previous view) and is issued exactly for non-empty filtered
sets. -/
theorem fitBounds_empty_noop (data : List Quake) (t : ℚ) :
    (filtered data t = [] → fitBoundsCall data t = none) ∧
    (fitBoundsCall data t ≠ none → filtered data t ≠ []) ∧
    (filtered data t ≠ [] → fitBoundsCall data t ≠ none) := by
  refine ⟨fun h => ?_, fun h hne => h ?_, fun h => ?_⟩
  · simp [fitBoundsCall, h, fitBoundsEffect]
  · simp [fitBoundsCall, hne, fitBoundsEffect]
  · have hlen : 0 < (filtered data t).length := List.length_pos.2 h
    simp only [fitBoundsCall, fitBoundsEffect, List.length_map, List.filter_true]
    rw [if_neg (by omega)]
    rw [if_pos (by simpa using hlen)]
    simp

/-- Witness for C7 at a concrete input. -/
theorem fitBounds_empty_noop_witness :
    filtered ([] : List Quake) 0 = [] ∧ fitBoundsCall [] 0 = none :=
  ⟨rfl, (fitBounds_empty_noop [] 0).1 rfl⟩

/-- Claim C8: when the fetch fails (rejection, or the error thrown on a non-ok
HTTP status), the mounted session stores an error message, ends loading, keeps
the initial empty data, and the filtered view stays empty at any threshold. -/
theorem fetch_failure_spec (msg : String) (t : ℚ) :
    ((resolveFetch true initialState (FetchOutcome.failure msg)).error).isSome = true ∧
    (resolveFetch true initialState (FetchOutcome.failure msg)).loading = false ∧
    (resolveFetch true initialState (FetchOutcome.failure msg)).data = [] ∧
    filtered (resolveFetch true initialState (FetchOutcome.failure msg)).data t = [] := by
  refine ⟨?_, rfl, rfl, rfl⟩
  simp [resolveFetch, initialState]

/-- Claim C9: if the view is torn down (`mounted = false`) before the fetch
settles, resolution mutates no retained state: data, loading and error are all
unchanged, whatever the outcome. -/
theorem unmounted_resolution_noop (s : SessionState) (o : FetchOutcome) :
    resolveFetch false s o = s := by
  cases o <;> simp [resolveFetch]

/-- Claim C10: a record whose magnitude is `NaN` is excluded at every
threshold, including 0, because `NaN ?? 0` is `NaN` and `NaN >= t` is false —
unlike a null magnitude, which is shown at threshold 0. -/
theorem nan_magnitude_never_shown :
    (∀ (data : List Quake) (t : ℚ) (q : Quake),
        q.magnitude = some JSNum.nan → q ∉ filtered data t) ∧
    (∀ (data : List Quake) (q : Quake),
        q.magnitude = none → q ∈ data → q ∈ filtered data 0) := by
  constructor
  · intro data t q hq hmem
    rcases List.mem_filter.1 hmem with ⟨-, hpred⟩
    rw [hq] at hpred
    simp [nullish0, JSNum.jsGe] at hpred
  · intro data q hq hmem
    refine List.mem_filter.2 ⟨hmem, ?_⟩
    rw [hq]
    simp [nullish0, JSNum.jsGe]

/-- Witness for C10 at concrete inputs. -/
theorem nan_magnitude_never_shown_witness :
    (qNaN.magnitude = some JSNum.nan ∧ qNaN ∉ filtered [qNaN] 0) ∧
    (qNull.magnitude = none ∧ qNull ∈ [qNull] ∧ qNull ∈ filtered [qNull] 0) :=
  ⟨⟨rfl, nan_magnitude_never_shown.1 [qNaN] 0 qNaN rfl⟩,
   ⟨rfl, by simp, nan_magnitude_never_shown.2 [qNull] qNull rfl (by simp)⟩⟩

end EqViz
